import Mathlib

/-
Verification of the NotanPro Stripe webhook handler (src/server.js).

The server is a single Express route `POST /webhook` that verifies the
provider signature over the raw body, dispatches on the event type string,
and reconciles a Firestore-backed record store: a `users` collection of
account documents and an append-only `payments` collection.

Shallow embedding: the two collections become lists, each handler becomes a
function from its payload and the store to `Except String Store` (a Firestore
`doc(id).update` on a missing document raises NOT_FOUND, which the route's
try/catch turns into a 500), and server timestamps become an explicit `now`
parameter.  Signature verification is delegated by the code to the external
`stripe.webhooks.constructEvent` primitive, so it is abstracted as a boolean
on the request: `signatureOk = false` covers both a missing and a
non-verifying `stripe-signature` header, the two cases in which
`constructEvent` throws.
-/

namespace NotanProWebhook

/-- An account document in the `users` collection: the fields this service
reads or writes (src/server.js handlers).  An absent or null field is `none`;
timestamps are integers. -/
structure Account where
  subscriptionStatus : Option String := none
  subscriptionId : Option String := none
  customerId : Option String := none
  trialEndDate : Option Int := none
  activatedDate : Option Int := none
  currentPeriodStart : Option Int := none
  currentPeriodEnd : Option Int := none
  updatedDate : Option Int := none
  cancelledDate : Option Int := none
  lastPaymentDate : Option Int := none
  lastFailedPaymentDate : Option Int := none
  deriving Repr, DecidableEq

/-- A document of the append-only `payments` collection, as written by
handlePaymentSucceeded (paidDate, status "succeeded") and handlePaymentFailed
(failedDate, status "failed") in src/server.js. -/
structure PaymentRecord where
  userId : String
  subscriptionId : String
  invoiceId : String
  amount : Int
  currency : String
  status : String
  paidDate : Option Int := none
  failedDate : Option Int := none
  deriving Repr, DecidableEq

/-- The record store: the `users` collection as document-id/account pairs and
the `payments` collection as an append-only list. -/
structure Store where
  users : List (String × Account)
  payments : List PaymentRecord
  deriving Repr, DecidableEq

/-- A `checkout.session.completed` payload: the fields the handler reads. -/
structure CheckoutSession where
  id : String
  client_reference_id : Option String := none
  subscription : Option String := none
  customer : Option String := none
  deriving Repr, DecidableEq

/-- A subscription payload (`customer.subscription.*` events). -/
structure Subscription where
  id : String
  customer : String
  status : String
  current_period_start : Int
  current_period_end : Int
  deriving Repr, DecidableEq

/-- An invoice payload (`invoice.payment_succeeded` / `invoice.payment_failed`). -/
structure Invoice where
  id : String
  subscription : Option String := none
  amount_paid : Int := 0
  amount_due : Int := 0
  currency : String := "usd"
  deriving Repr, DecidableEq

/-- The payload object `event.data.object` carried by a verified event. -/
inductive StripeObject where
  | session (s : CheckoutSession)
  | sub (s : Subscription)
  | invoice (i : Invoice)
  deriving Repr, DecidableEq

/-- A verified provider event: a type tag and its payload object. -/
structure Event where
  type : String
  object : StripeObject
  deriving Repr, DecidableEq

/-- Firestore query `users.where('customerId','==',cid).limit(1)`: first
account whose customerId equals the given id. -/
def findUserByCustomerId (users : List (String × Account)) (cid : String) :
    Option (String × Account) :=
  users.find? fun p => p.2.customerId == some cid

/-- Firestore query `users.where('subscriptionId','==',sid).limit(1)`: first
account whose subscriptionId equals the given id. -/
def findUserBySubscriptionId (users : List (String × Account)) (sid : String) :
    Option (String × Account) :=
  users.find? fun p => p.2.subscriptionId == some sid

/-- Read the account stored under a document id. -/
def lookupUser (users : List (String × Account)) (docId : String) : Option Account :=
  (users.find? fun p => p.1 == docId).map Prod.snd

/-- Apply a field update to the document with the given id. -/
def updateUser (users : List (String × Account)) (docId : String)
    (f : Account → Account) : List (String × Account) :=
  users.map fun p => if p.1 == docId then (p.1, f p.2) else p

/-- Firestore `db.collection('users').doc(docId).update(...)`: merges fields
into an existing document and raises NOT_FOUND when the document is absent. -/
def usersDocUpdate (st : Store) (docId : String) (f : Account → Account) :
    Except String Store :=
  if (lookupUser st.users docId).isSome then
    .ok { st with users := updateUser st.users docId f }
  else
    .error "NOT_FOUND: no document to update"

/-- Firestore `db.collection('payments').add(...)`: appends a fresh document. -/
def paymentsAdd (st : Store) (rec : PaymentRecord) : Store :=
  { st with payments := st.payments ++ [rec] }

/-- handleCheckoutCompleted (src/server.js:81-103): on a falsy
client_reference_id (null, absent or empty) log and return; otherwise update
the referenced user document. -/
def handleCheckoutCompleted (session : CheckoutSession) (st : Store) (now : Int) :
    Except String Store :=
  match session.client_reference_id with
  | none => .ok st
  | some userId =>
    if userId.isEmpty then .ok st
    else
      usersDocUpdate st userId fun a =>
        { a with
          subscriptionStatus := some "active"
          subscriptionId := session.subscription
          customerId := session.customer
          activatedDate := some now
          trialEndDate := none }

/-- handleSubscriptionCreated (src/server.js:106-131): find the user by
customerId; on a miss log and return, otherwise activate and attach the
subscription. -/
def handleSubscriptionCreated (subscription : Subscription) (st : Store) (_now : Int) :
    Except String Store :=
  match findUserByCustomerId st.users subscription.customer with
  | none => .ok st
  | some (docId, _) =>
    usersDocUpdate st docId fun a =>
      { a with
        subscriptionStatus := some "active"
        subscriptionId := some subscription.id
        currentPeriodStart := some (subscription.current_period_start * 1000)
        currentPeriodEnd := some (subscription.current_period_end * 1000) }

/-- handleSubscriptionUpdated (src/server.js:134-159): find the user by
subscriptionId; set status to "active" exactly when the provider status is
"active", else "inactive"; refresh period bounds. -/
def handleSubscriptionUpdated (subscription : Subscription) (st : Store) (now : Int) :
    Except String Store :=
  match findUserBySubscriptionId st.users subscription.id with
  | none => .ok st
  | some (docId, _) =>
    usersDocUpdate st docId fun a =>
      { a with
        subscriptionStatus :=
          some (if subscription.status = "active" then "active" else "inactive")
        currentPeriodStart := some (subscription.current_period_start * 1000)
        currentPeriodEnd := some (subscription.current_period_end * 1000)
        updatedDate := some now }

/-- handleSubscriptionDeleted (src/server.js:162-184): find the user by
subscriptionId; mark the subscription expired and stamp the cancellation. -/
def handleSubscriptionDeleted (subscription : Subscription) (st : Store) (now : Int) :
    Except String Store :=
  match findUserBySubscriptionId st.users subscription.id with
  | none => .ok st
  | some (docId, _) =>
    usersDocUpdate st docId fun a =>
      { a with
        subscriptionStatus := some "expired"
        cancelledDate := some now }

/-- handlePaymentSucceeded (src/server.js:187-224): on a falsy invoice
subscription return; otherwise find the user by subscriptionId, append a
succeeded payment record and re-activate the subscription. -/
def handlePaymentSucceeded (invoice : Invoice) (st : Store) (now : Int) :
    Except String Store :=
  match invoice.subscription with
  | none => .ok st
  | some subscriptionId =>
    if subscriptionId.isEmpty then .ok st
    else
      match findUserBySubscriptionId st.users subscriptionId with
      | none => .ok st
      | some (docId, _) =>
        let st1 := paymentsAdd st
          { userId := docId
            subscriptionId := subscriptionId
            invoiceId := invoice.id
            amount := invoice.amount_paid
            currency := invoice.currency
            status := "succeeded"
            paidDate := some now }
        usersDocUpdate st1 docId fun a =>
          { a with
            subscriptionStatus := some "active"
            lastPaymentDate := some now }

/-- handlePaymentFailed (src/server.js:227-264): on a falsy invoice
subscription return; otherwise find the user by subscriptionId, append a
failed payment record and mark the subscription past due. -/
def handlePaymentFailed (invoice : Invoice) (st : Store) (now : Int) :
    Except String Store :=
  match invoice.subscription with
  | none => .ok st
  | some subscriptionId =>
    if subscriptionId.isEmpty then .ok st
    else
      match findUserBySubscriptionId st.users subscriptionId with
      | none => .ok st
      | some (docId, _) =>
        let st1 := paymentsAdd st
          { userId := docId
            subscriptionId := subscriptionId
            invoiceId := invoice.id
            amount := invoice.amount_due
            currency := invoice.currency
            status := "failed"
            failedDate := some now }
        usersDocUpdate st1 docId fun a =>
          { a with
            subscriptionStatus := some "past_due"
            lastFailedPaymentDate := some now }

/-- The switch on event.type in the route (src/server.js:41-68); an unmatched
type is logged and falls through to the acknowledgement. -/
def webhookDispatch (event : Event) (st : Store) (now : Int) : Except String Store :=
  if event.type = "checkout.session.completed" then
    match event.object with
    | .session s => handleCheckoutCompleted s st now
    | _ => .ok st
  else if event.type = "customer.subscription.created" then
    match event.object with
    | .sub s => handleSubscriptionCreated s st now
    | _ => .ok st
  else if event.type = "customer.subscription.updated" then
    match event.object with
    | .sub s => handleSubscriptionUpdated s st now
    | _ => .ok st
  else if event.type = "customer.subscription.deleted" then
    match event.object with
    | .sub s => handleSubscriptionDeleted s st now
    | _ => .ok st
  else if event.type = "invoice.payment_succeeded" then
    match event.object with
    | .invoice i => handlePaymentSucceeded i st now
    | _ => .ok st
  else if event.type = "invoice.payment_failed" then
    match event.object with
    | .invoice i => handlePaymentFailed i st now
    | _ => .ok st
  else
    .ok st

/-- The three response bodies the route can produce. -/
inductive ResponseBody where
  | receivedTrue
  | webhookError
  | processingFailed
  deriving Repr, DecidableEq

/-- An HTTP response: status code and body. -/
structure HttpResponse where
  status : Nat
  body : ResponseBody
  deriving Repr, DecidableEq

/-- An inbound webhook request: whether `stripe.webhooks.constructEvent`
verifies the signature header against the raw body and the secret (false also
when the header is missing), and the event it parses to on success. -/
structure WebhookRequest where
  signatureOk : Bool
  event : Event
  deriving Repr, DecidableEq

/-- The POST /webhook route (src/server.js:24-75): reject with 400 when the
signature does not verify; otherwise dispatch, acknowledging with
200 {received:true} and converting a thrown handler error into a 500. -/
def webhookPost (req : WebhookRequest) (st : Store) (now : Int) :
    HttpResponse × Store :=
  if !req.signatureOk then
    (⟨400, .webhookError⟩, st)
  else
    match webhookDispatch req.event st now with
    | .ok st1 => (⟨200, .receivedTrue⟩, st1)
    | .error _ => (⟨500, .processingFailed⟩, st)

/-! Helper lemmas about the store operations. -/

theorem find?_map_pointwise {α : Type} (g : α → α) (p : α → Bool)
    (h : ∀ x, p (g x) = p x) (l : List α) :
    (l.map g).find? p = (l.find? p).map g := by
  induction l with
  | nil => rfl
  | cons a t ih =>
    simp only [List.map_cons, List.find?_cons, h a]
    cases p a <;> simp [ih]

theorem lookupUser_updateUser (users : List (String × Account)) (docId : String)
    (f : Account → Account) :
    lookupUser (updateUser users docId f) docId = (lookupUser users docId).map f := by
  unfold lookupUser updateUser
  rw [find?_map_pointwise (fun p => if p.1 == docId then (p.1, f p.2) else p)
    (fun p => p.1 == docId) ?_]
  · cases hf : users.find? fun p => p.1 == docId with
    | none => rfl
    | some pr =>
      have hp : pr.1 = docId := by simpa using List.find?_some hf
      simp [hp]
  · intro x
    cases hx : (x.1 == docId) <;> simp [hx]

theorem findUserBySubscriptionId_updateUser (users : List (String × Account))
    (docId sid : String) (f : Account → Account)
    (hf : ∀ a, (f a).subscriptionId = a.subscriptionId) :
    findUserBySubscriptionId (updateUser users docId f) sid =
      (findUserBySubscriptionId users sid).map
        fun p => if p.1 == docId then (p.1, f p.2) else p := by
  unfold findUserBySubscriptionId updateUser
  rw [find?_map_pointwise]
  intro x
  cases hx : (x.1 == docId) <;> simp [hx, hf]

theorem lookupUser_isSome_of_find {users : List (String × Account)} {docId : String}
    {acc : Account} (h : (docId, acc) ∈ users) :
    (lookupUser users docId).isSome = true := by
  unfold lookupUser
  cases hf : users.find? fun p => p.1 == docId with
  | none =>
    have h1 : (users.find? fun p => p.1 == docId).isSome :=
      List.find?_isSome.mpr ⟨(docId, acc), h, by simp⟩
    rw [hf] at h1
    simp at h1
  | some pr => rfl

theorem mem_of_findUserBySubscriptionId {users : List (String × Account)}
    {sid docId : String} {acc : Account}
    (h : findUserBySubscriptionId users sid = some (docId, acc)) :
    (docId, acc) ∈ users :=
  List.mem_of_find?_eq_some (by simpa [findUserBySubscriptionId] using h)

/-! The claim theorems. -/

/-- Claim C1: a POST /webhook request whose signature header is missing or does
not verify (constructEvent throws, modelled as signatureOk = false) is answered
with a 400 client error and the store is returned unchanged: no account record
is updated and no payment record is created. -/
theorem webhookPost_bad_signature (req : WebhookRequest) (st : Store) (now : Int)
    (h : req.signatureOk = false) :
    webhookPost req st now = (⟨400, .webhookError⟩, st) := by
  simp [webhookPost, h]

theorem webhookPost_bad_signature_witness :
    webhookPost
      ⟨false, ⟨"checkout.session.completed",
        .session ⟨"cs_1", some "u1", some "sub_1", some "cus_1"⟩⟩⟩
      ⟨[("u1", {})], []⟩ 0 =
      (⟨400, .webhookError⟩, ⟨[("u1", {})], []⟩) :=
  webhookPost_bad_signature _ _ _ rfl

/-- Claim C2: for a verified customer.subscription.updated event matching an
account by subscriptionId, the resulting subscriptionStatus is "active" exactly
when the provider status equals "active"; for any other provider status it is
"inactive", never "active". -/
theorem handleSubscriptionUpdated_status (sub : Subscription) (st : Store) (now : Int)
    (docId : String) (acc : Account)
    (h : findUserBySubscriptionId st.users sub.id = some (docId, acc)) :
    ∃ st1 a1, handleSubscriptionUpdated sub st now = .ok st1 ∧
      lookupUser st1.users docId = some a1 ∧
      (a1.subscriptionStatus = some "active" ↔ sub.status = "active") ∧
      (sub.status ≠ "active" → a1.subscriptionStatus = some "inactive") := by
  have hsome := lookupUser_isSome_of_find (mem_of_findUserBySubscriptionId h)
  obtain ⟨b, hb⟩ := Option.isSome_iff_exists.mp hsome
  have hrun : handleSubscriptionUpdated sub st now =
      .ok { st with users := updateUser st.users docId fun a =>
        { a with
          subscriptionStatus :=
            some (if sub.status = "active" then "active" else "inactive")
          currentPeriodStart := some (sub.current_period_start * 1000)
          currentPeriodEnd := some (sub.current_period_end * 1000)
          updatedDate := some now } } := by
    simp [handleSubscriptionUpdated, h, usersDocUpdate, hsome]
  refine ⟨_, { b with
      subscriptionStatus :=
        some (if sub.status = "active" then "active" else "inactive")
      currentPeriodStart := some (sub.current_period_start * 1000)
      currentPeriodEnd := some (sub.current_period_end * 1000)
      updatedDate := some now }, hrun, ?_, ?_, ?_⟩
  · simp [lookupUser_updateUser, hb]
  · by_cases hstat : sub.status = "active"
    · simp [hstat]
    · simp [hstat]
  · intro hstat
    simp [hstat]

theorem handleSubscriptionUpdated_status_witness :
    ∃ st1 a1,
      handleSubscriptionUpdated ⟨"sub_1", "cus_1", "past_due", 10, 20⟩
        ⟨[("u1", { subscriptionId := some "sub_1" })], []⟩ 7 = .ok st1 ∧
      lookupUser st1.users "u1" = some a1 ∧
      (a1.subscriptionStatus = some "active" ↔
        Subscription.status ⟨"sub_1", "cus_1", "past_due", 10, 20⟩ = "active") ∧
      (Subscription.status ⟨"sub_1", "cus_1", "past_due", 10, 20⟩ ≠ "active" →
        a1.subscriptionStatus = some "inactive") :=
  handleSubscriptionUpdated_status ⟨"sub_1", "cus_1", "past_due", 10, 20⟩
    ⟨[("u1", { subscriptionId := some "sub_1" })], []⟩ 7 "u1"
    { subscriptionId := some "sub_1" } rfl

/-- Claim C3: a verified checkout-completed event with client_reference_id
"u1", subscription "sub_1", customer "cus_1", applied to a store containing an
account under document id "u1", is acknowledged with 200 and leaves account
"u1" with subscriptionStatus "active", subscriptionId "sub_1", customerId
"cus_1" and a cleared trialEndDate. -/
theorem webhookPost_checkout_u1 (st : Store) (acc : Account) (now : Int)
    (h : lookupUser st.users "u1" = some acc) :
    ∃ st1 a1,
      webhookPost ⟨true, ⟨"checkout.session.completed",
        .session ⟨"cs_1", some "u1", some "sub_1", some "cus_1"⟩⟩⟩ st now =
        (⟨200, .receivedTrue⟩, st1) ∧
      lookupUser st1.users "u1" = some a1 ∧
      a1.subscriptionStatus = some "active" ∧
      a1.subscriptionId = some "sub_1" ∧
      a1.customerId = some "cus_1" ∧
      a1.trialEndDate = none := by
  have hsome : (lookupUser st.users "u1").isSome = true := by rw [h]; rfl
  have hrun : webhookPost ⟨true, ⟨"checkout.session.completed",
      .session ⟨"cs_1", some "u1", some "sub_1", some "cus_1"⟩⟩⟩ st now =
      (⟨200, .receivedTrue⟩, { st with users := updateUser st.users "u1" fun a =>
        { a with
          subscriptionStatus := some "active"
          subscriptionId := some "sub_1"
          customerId := some "cus_1"
          activatedDate := some now
          trialEndDate := none } }) := by
    have hempty : "u1".isEmpty = false := rfl
    simp [webhookPost, webhookDispatch, handleCheckoutCompleted, usersDocUpdate,
      hsome, hempty]
  refine ⟨_, { acc with
      subscriptionStatus := some "active"
      subscriptionId := some "sub_1"
      customerId := some "cus_1"
      activatedDate := some now
      trialEndDate := none }, hrun, ?_, rfl, rfl, rfl, rfl⟩
  simp [lookupUser_updateUser, h]

theorem webhookPost_checkout_u1_witness :
    ∃ st1 a1,
      webhookPost ⟨true, ⟨"checkout.session.completed",
        .session ⟨"cs_1", some "u1", some "sub_1", some "cus_1"⟩⟩⟩
        ⟨[("u1", { subscriptionStatus := some "trial", trialEndDate := some 99 })], []⟩
        5 = (⟨200, .receivedTrue⟩, st1) ∧
      lookupUser st1.users "u1" = some a1 ∧
      a1.subscriptionStatus = some "active" ∧
      a1.subscriptionId = some "sub_1" ∧
      a1.customerId = some "cus_1" ∧
      a1.trialEndDate = none :=
  webhookPost_checkout_u1
    ⟨[("u1", { subscriptionStatus := some "trial", trialEndDate := some 99 })], []⟩
    { subscriptionStatus := some "trial", trialEndDate := some 99 } 5 rfl

/-- Claim C4: delivering the same customer.subscription.deleted event twice is
idempotent on account state: the account matched by subscriptionId has
subscriptionStatus "expired" after the first delivery and after the second. -/
theorem handleSubscriptionDeleted_idempotent (sub : Subscription) (st : Store)
    (now now2 : Int) (docId : String) (acc : Account)
    (h : findUserBySubscriptionId st.users sub.id = some (docId, acc)) :
    ∃ st1 st2 a1 a2,
      handleSubscriptionDeleted sub st now = .ok st1 ∧
      lookupUser st1.users docId = some a1 ∧
      a1.subscriptionStatus = some "expired" ∧
      handleSubscriptionDeleted sub st1 now2 = .ok st2 ∧
      lookupUser st2.users docId = some a2 ∧
      a2.subscriptionStatus = some "expired" := by
  have hsome := lookupUser_isSome_of_find (mem_of_findUserBySubscriptionId h)
  obtain ⟨b, hb⟩ := Option.isSome_iff_exists.mp hsome
  have hrun1 : handleSubscriptionDeleted sub st now =
      .ok { st with users := updateUser st.users docId fun a =>
        { a with subscriptionStatus := some "expired", cancelledDate := some now } } := by
    simp [handleSubscriptionDeleted, h, usersDocUpdate, hsome]
  have hfind2 : findUserBySubscriptionId
      (updateUser st.users docId fun a =>
        { a with subscriptionStatus := some "expired", cancelledDate := some now })
      sub.id =
      some (docId,
        { acc with subscriptionStatus := some "expired", cancelledDate := some now }) := by
    rw [findUserBySubscriptionId_updateUser]
    · rw [h]
      simp
    · intro a
      rfl
  have hsome2 : (lookupUser
      (updateUser st.users docId fun a =>
        { a with subscriptionStatus := some "expired", cancelledDate := some now })
      docId).isSome = true := by
    rw [lookupUser_updateUser, hb]
    rfl
  have hrun2 : handleSubscriptionDeleted sub
      { st with users := updateUser st.users docId fun a =>
        { a with subscriptionStatus := some "expired", cancelledDate := some now } }
      now2 =
      .ok { st with users := (updateUser
          (updateUser st.users docId fun a =>
            { a with subscriptionStatus := some "expired", cancelledDate := some now })
          docId fun a =>
            { a with subscriptionStatus := some "expired", cancelledDate := some now2 }) } := by
    simp [handleSubscriptionDeleted, hfind2, usersDocUpdate, hsome2]
  refine ⟨_, _,
    { b with subscriptionStatus := some "expired", cancelledDate := some now },
    { b with subscriptionStatus := some "expired", cancelledDate := some now2 },
    hrun1, ?_, rfl, hrun2, ?_, rfl⟩
  · simp [lookupUser_updateUser, hb]
  · simp [lookupUser_updateUser, hb]

theorem handleSubscriptionDeleted_idempotent_witness :
    ∃ st1 st2 a1 a2,
      handleSubscriptionDeleted ⟨"sub_2", "cus_2", "canceled", 1, 2⟩
        ⟨[("u2", { subscriptionId := some "sub_2" })], []⟩ 11 = .ok st1 ∧
      lookupUser st1.users "u2" = some a1 ∧
      a1.subscriptionStatus = some "expired" ∧
      handleSubscriptionDeleted ⟨"sub_2", "cus_2", "canceled", 1, 2⟩ st1 12 = .ok st2 ∧
      lookupUser st2.users "u2" = some a2 ∧
      a2.subscriptionStatus = some "expired" :=
  handleSubscriptionDeleted_idempotent ⟨"sub_2", "cus_2", "canceled", 1, 2⟩
    ⟨[("u2", { subscriptionId := some "sub_2" })], []⟩ 11 12 "u2"
    { subscriptionId := some "sub_2" } rfl

/-- Claim C5: the payment-record append is not idempotent: delivering the same
verified invoice.payment_succeeded event twice, with its subscriptionId
matching an account, appends two payment records carrying the same invoiceId
to the payments collection. -/
theorem webhookPost_paymentSucceeded_duplicates (inv : Invoice) (st : Store)
    (now now2 : Int) (sid docId : String) (acc : Account)
    (hs : inv.subscription = some sid) (hne : sid.isEmpty = false)
    (h : findUserBySubscriptionId st.users sid = some (docId, acc)) :
    ∃ st1 st2,
      webhookPost ⟨true, ⟨"invoice.payment_succeeded", .invoice inv⟩⟩ st now =
        (⟨200, .receivedTrue⟩, st1) ∧
      webhookPost ⟨true, ⟨"invoice.payment_succeeded", .invoice inv⟩⟩ st1 now2 =
        (⟨200, .receivedTrue⟩, st2) ∧
      (st2.payments.filter fun r => r.invoiceId == inv.id).length =
        (st.payments.filter fun r => r.invoiceId == inv.id).length + 2 := by
  have hsome := lookupUser_isSome_of_find (mem_of_findUserBySubscriptionId h)
  obtain ⟨b, hb⟩ := Option.isSome_iff_exists.mp hsome
  have hrun1 : webhookPost ⟨true, ⟨"invoice.payment_succeeded", .invoice inv⟩⟩ st now =
      (⟨200, .receivedTrue⟩,
        ⟨updateUser st.users docId fun a =>
          { a with subscriptionStatus := some "active", lastPaymentDate := some now },
         st.payments ++
           [⟨docId, sid, inv.id, inv.amount_paid, inv.currency, "succeeded",
             some now, none⟩]⟩) := by
    simp [webhookPost, webhookDispatch, handlePaymentSucceeded, hs, hne, h,
      usersDocUpdate, paymentsAdd, hsome]
  have hfind2 : findUserBySubscriptionId
      (updateUser st.users docId fun a =>
        { a with subscriptionStatus := some "active", lastPaymentDate := some now })
      sid =
      some (docId,
        { acc with subscriptionStatus := some "active", lastPaymentDate := some now }) := by
    rw [findUserBySubscriptionId_updateUser]
    · rw [h]
      simp
    · intro a
      rfl
  have hsome2 : (lookupUser
      (updateUser st.users docId fun a =>
        { a with subscriptionStatus := some "active", lastPaymentDate := some now })
      docId).isSome = true := by
    rw [lookupUser_updateUser, hb]
    rfl
  have hrun2 : webhookPost ⟨true, ⟨"invoice.payment_succeeded", .invoice inv⟩⟩
      ⟨updateUser st.users docId fun a =>
        { a with subscriptionStatus := some "active", lastPaymentDate := some now },
       st.payments ++
         [⟨docId, sid, inv.id, inv.amount_paid, inv.currency, "succeeded",
           some now, none⟩]⟩ now2 =
      (⟨200, .receivedTrue⟩,
        ⟨updateUser
          (updateUser st.users docId fun a =>
            { a with subscriptionStatus := some "active", lastPaymentDate := some now })
          docId
          (fun a =>
            { a with subscriptionStatus := some "active", lastPaymentDate := some now2 }),
         (st.payments ++
           [⟨docId, sid, inv.id, inv.amount_paid, inv.currency, "succeeded",
             some now, none⟩]) ++
           [⟨docId, sid, inv.id, inv.amount_paid, inv.currency, "succeeded",
             some now2, none⟩]⟩) := by
    simp [webhookPost, webhookDispatch, handlePaymentSucceeded, hs, hne, hfind2,
      usersDocUpdate, paymentsAdd, hsome2]
  refine ⟨_, _, hrun1, hrun2, ?_⟩
  simp [List.filter_append]

theorem webhookPost_paymentSucceeded_duplicates_witness :
    ∃ st1 st2,
      webhookPost ⟨true, ⟨"invoice.payment_succeeded",
        .invoice ⟨"in_7", some "sub_3", 999, 999, "eur"⟩⟩⟩
        ⟨[("u3", { subscriptionId := some "sub_3" })], []⟩ 21 =
        (⟨200, .receivedTrue⟩, st1) ∧
      webhookPost ⟨true, ⟨"invoice.payment_succeeded",
        .invoice ⟨"in_7", some "sub_3", 999, 999, "eur"⟩⟩⟩ st1 22 =
        (⟨200, .receivedTrue⟩, st2) ∧
      (st2.payments.filter fun r =>
          r.invoiceId == Invoice.id ⟨"in_7", some "sub_3", 999, 999, "eur"⟩).length =
        (Store.payments ⟨[("u3", { subscriptionId := some "sub_3" })], []⟩ |>.filter
          fun r =>
            r.invoiceId == Invoice.id ⟨"in_7", some "sub_3", 999, 999, "eur"⟩).length
          + 2 :=
  webhookPost_paymentSucceeded_duplicates ⟨"in_7", some "sub_3", 999, 999, "eur"⟩
    ⟨[("u3", { subscriptionId := some "sub_3" })], []⟩ 21 22 "sub_3" "u3"
    { subscriptionId := some "sub_3" } rfl rfl rfl

/-- Claim C6: a verified event whose type is none of the six handled types is
acknowledged with 200 {received:true} and the store is returned unchanged: no
account record is mutated and no payment record is created. -/
theorem webhookPost_unknown_type (req : WebhookRequest) (st : Store) (now : Int)
    (hsig : req.signatureOk = true)
    (h1 : req.event.type ≠ "checkout.session.completed")
    (h2 : req.event.type ≠ "customer.subscription.created")
    (h3 : req.event.type ≠ "customer.subscription.updated")
    (h4 : req.event.type ≠ "customer.subscription.deleted")
    (h5 : req.event.type ≠ "invoice.payment_succeeded")
    (h6 : req.event.type ≠ "invoice.payment_failed") :
    webhookPost req st now = (⟨200, .receivedTrue⟩, st) := by
  simp [webhookPost, webhookDispatch, hsig, h1, h2, h3, h4, h5, h6]

theorem webhookPost_unknown_type_witness :
    webhookPost ⟨true, ⟨"foo.bar", .session ⟨"cs_1", some "u1", none, none⟩⟩⟩
      ⟨[("u1", {})], []⟩ 0 =
      (⟨200, .receivedTrue⟩, ⟨[("u1", {})], []⟩) :=
  webhookPost_unknown_type _ _ _ rfl (by decide) (by decide) (by decide) (by decide)
    (by decide) (by decide)

/-- Claim C7: a verified customer.subscription.created event whose customerId
matches no account performs no mutation and does not throw: the handler
returns the store unchanged and the route still acknowledges with 200. -/
theorem handleSubscriptionCreated_lookup_miss (sub : Subscription) (st : Store)
    (now : Int) (h : findUserByCustomerId st.users sub.customer = none) :
    handleSubscriptionCreated sub st now = .ok st ∧
    webhookPost ⟨true, ⟨"customer.subscription.created", .sub sub⟩⟩ st now =
      (⟨200, .receivedTrue⟩, st) := by
  refine ⟨?_, ?_⟩
  · simp [handleSubscriptionCreated, h]
  · simp [webhookPost, webhookDispatch, handleSubscriptionCreated, h]

theorem handleSubscriptionCreated_lookup_miss_witness :
    handleSubscriptionCreated ⟨"sub_1", "cus_1", "active", 0, 0⟩
        ⟨[("u1", {})], []⟩ 0 = .ok ⟨[("u1", {})], []⟩ ∧
    webhookPost ⟨true, ⟨"customer.subscription.created",
        .sub ⟨"sub_1", "cus_1", "active", 0, 0⟩⟩⟩ ⟨[("u1", {})], []⟩ 0 =
      (⟨200, .receivedTrue⟩, ⟨[("u1", {})], []⟩) :=
  handleSubscriptionCreated_lookup_miss _ _ _ rfl

/-- Claim C8: a verified event whose handler raises an error (for example a
store-write failure, such as an update of a missing users document) is answered
with status 500 and the JSON error body, not a crash or a 200; a verified event
whose handler returns normally is acknowledged with 200 {received:true}. -/
theorem webhookPost_handler_outcome (req : WebhookRequest) (st : Store) (now : Int)
    (hsig : req.signatureOk = true) :
    (∀ msg, webhookDispatch req.event st now = .error msg →
      webhookPost req st now = (⟨500, .processingFailed⟩, st)) ∧
    (∀ st1, webhookDispatch req.event st now = .ok st1 →
      webhookPost req st now = (⟨200, .receivedTrue⟩, st1)) := by
  refine ⟨fun msg hm => ?_, fun st1 h1 => ?_⟩
  · simp [webhookPost, hsig, hm]
  · simp [webhookPost, hsig, h1]

theorem webhookPost_handler_outcome_witness :
    webhookPost ⟨true, ⟨"checkout.session.completed",
        .session ⟨"cs_9", some "ghost", none, none⟩⟩⟩ ⟨[], []⟩ 0 =
      (⟨500, .processingFailed⟩, ⟨[], []⟩) :=
  (webhookPost_handler_outcome _ _ _ rfl).1 "NOT_FOUND: no document to update" rfl

/-- Claim C9: a verified checkout.session.completed event whose session has no
client_reference_id returns without touching the store — no account is updated
and no payment record is created — and the request is still acknowledged with
200 {received:true}. -/
theorem handleCheckoutCompleted_no_reference (sess : CheckoutSession) (st : Store)
    (now : Int) (h : sess.client_reference_id = none) :
    handleCheckoutCompleted sess st now = .ok st ∧
    webhookPost ⟨true, ⟨"checkout.session.completed", .session sess⟩⟩ st now =
      (⟨200, .receivedTrue⟩, st) := by
  refine ⟨?_, ?_⟩
  · simp [handleCheckoutCompleted, h]
  · simp [webhookPost, webhookDispatch, handleCheckoutCompleted, h]

theorem handleCheckoutCompleted_no_reference_witness :
    handleCheckoutCompleted ⟨"cs_1", none, some "sub_1", some "cus_1"⟩
        ⟨[("u1", {})], []⟩ 0 = .ok ⟨[("u1", {})], []⟩ ∧
    webhookPost ⟨true, ⟨"checkout.session.completed",
        .session ⟨"cs_1", none, some "sub_1", some "cus_1"⟩⟩⟩ ⟨[("u1", {})], []⟩ 0 =
      (⟨200, .receivedTrue⟩, ⟨[("u1", {})], []⟩) :=
  handleCheckoutCompleted_no_reference _ _ _ rfl

/-- Claim C10: a verified invoice.payment_succeeded or invoice.payment_failed
event whose invoice carries no subscription reference returns immediately: no
payment record is appended, no account status is changed, and the request is
acknowledged with 200. -/
theorem payment_handlers_no_subscription (inv : Invoice) (st : Store) (now : Int)
    (h : inv.subscription = none) :
    handlePaymentSucceeded inv st now = .ok st ∧
    handlePaymentFailed inv st now = .ok st ∧
    webhookPost ⟨true, ⟨"invoice.payment_succeeded", .invoice inv⟩⟩ st now =
      (⟨200, .receivedTrue⟩, st) ∧
    webhookPost ⟨true, ⟨"invoice.payment_failed", .invoice inv⟩⟩ st now =
      (⟨200, .receivedTrue⟩, st) := by
  refine ⟨?_, ?_, ?_, ?_⟩
  · simp [handlePaymentSucceeded, h]
  · simp [handlePaymentFailed, h]
  · simp [webhookPost, webhookDispatch, handlePaymentSucceeded, h]
  · simp [webhookPost, webhookDispatch, handlePaymentFailed, h]

theorem payment_handlers_no_subscription_witness :
    handlePaymentSucceeded ⟨"in_1", none, 500, 500, "usd"⟩ ⟨[("u1", {})], []⟩ 0 =
      .ok ⟨[("u1", {})], []⟩ ∧
    handlePaymentFailed ⟨"in_1", none, 500, 500, "usd"⟩ ⟨[("u1", {})], []⟩ 0 =
      .ok ⟨[("u1", {})], []⟩ ∧
    webhookPost ⟨true, ⟨"invoice.payment_succeeded",
        .invoice ⟨"in_1", none, 500, 500, "usd"⟩⟩⟩ ⟨[("u1", {})], []⟩ 0 =
      (⟨200, .receivedTrue⟩, ⟨[("u1", {})], []⟩) ∧
    webhookPost ⟨true, ⟨"invoice.payment_failed",
        .invoice ⟨"in_1", none, 500, 500, "usd"⟩⟩⟩ ⟨[("u1", {})], []⟩ 0 =
      (⟨200, .receivedTrue⟩, ⟨[("u1", {})], []⟩) :=
  payment_handlers_no_subscription _ _ _ rfl

end NotanProWebhook
